import Mathlib

/-!
Verification of the swap-gate family of qiskit/extensions/standard/swap.py:
SwapGate, CSwapGate, the deprecated FredkinGate alias, the control-synthesis
shortcut, the inverse methods, and the circuit convenience methods.

Matrices are embedded as total functions on natural-number indices with exact
integer entries (every entry of the numpy literals in this file of the source
is 0 or 1, and products of such matrices stay integral). An n-by-n matrix is
read on indices below n. The qubit ordering convention is the one the source
documents: qubit 0 is the least significant bit of a basis-state index.
-/

/-- A matrix with exact integer entries, indexed by naturals. -/
abbrev Mat := Nat → Nat → Int

/-- Build a matrix from a row-major list of rows, mirroring a numpy literal. -/
def ofRows (rows : List (List Int)) : Mat :=
  fun i j => ((rows.getD i []).getD j 0)

/-- The identity matrix. -/
def idMat : Mat := fun i j => if i = j then 1 else 0

/-- Product of two n-by-n matrices. -/
def matMulN (n : Nat) (A B : Mat) : Mat :=
  fun i j => ((List.range n).map (fun k => A i k * B k j)).sum

/-- Entry-for-entry equality of two n-by-n matrices. -/
def matEqN (n : Nat) (A B : Mat) : Prop :=
  ∀ i < n, ∀ j < n, A i j = B i j

instance (n : Nat) (A B : Mat) : Decidable (matEqN n A B) := by
  unfold matEqN; infer_instance

/-- SwapGate.to_matrix, transcribed from the numpy literal in the source
(swap.py lines 102 to 107). -/
def SwapGate.to_matrix : Mat :=
  ofRows [[1, 0, 0, 0],
          [0, 0, 1, 0],
          [0, 1, 0, 0],
          [0, 0, 0, 1]]

/-- CSwapGate.to_matrix, transcribed from the numpy literal in the source
(swap.py lines 232 to 241). -/
def CSwapGate.to_matrix : Mat :=
  ofRows [[1, 0, 0, 0, 0, 0, 0, 0],
          [0, 1, 0, 0, 0, 0, 0, 0],
          [0, 0, 1, 0, 0, 0, 0, 0],
          [0, 0, 0, 0, 0, 1, 0, 0],
          [0, 0, 0, 0, 1, 0, 0, 0],
          [0, 0, 0, 1, 0, 0, 0, 0],
          [0, 0, 0, 0, 0, 0, 1, 0],
          [0, 0, 0, 0, 0, 0, 0, 1]]

/-- Modelled from the spec: the matrix of CXGate, whose defining file
(qiskit/extensions/standard/x.py) is not under src/. A controlled-NOT with
control qubit 0 and target qubit 1 flips the target bit exactly when the
control bit is 1, under the qubit-0-least-significant convention: it swaps
basis states 1 and 3 and fixes 0 and 2. -/
def CXGate.to_matrix : Mat :=
  ofRows [[1, 0, 0, 0],
          [0, 0, 0, 1],
          [0, 0, 1, 0],
          [0, 1, 0, 0]]

/-- Modelled from the spec: the matrix of CCXGate (Toffoli, a doubly
controlled NOT), whose defining file (qiskit/extensions/standard/x.py) is not
under src/. Controls are qubits 0 and 1 and the target is qubit 2: bit 2 is
flipped exactly when bits 0 and 1 are both 1, so basis states 3 and 7 are
exchanged and all others fixed. -/
def CCXGate.to_matrix : Mat :=
  ofRows [[1, 0, 0, 0, 0, 0, 0, 0],
          [0, 1, 0, 0, 0, 0, 0, 0],
          [0, 0, 1, 0, 0, 0, 0, 0],
          [0, 0, 0, 0, 0, 0, 0, 1],
          [0, 0, 0, 0, 1, 0, 0, 0],
          [0, 0, 0, 0, 0, 1, 0, 0],
          [0, 0, 0, 0, 0, 0, 1, 0],
          [0, 0, 0, 1, 0, 0, 0, 0]]

/-- The sub-index of a full basis-state index x seen by a gate acting on the
qubits listed in qs: the bit of x at position qs.head becomes bit 0 of the
sub-index, and so on (the first listed qubit is the local qubit 0). -/
def subIndex : List Nat → Nat → Nat
  | [], _ => 0
  | q :: qs, x => (if Nat.testBit x q then 1 else 0) + 2 * subIndex qs x

/-- Whether two n-qubit basis-state indices agree on every qubit outside qs. -/
def agreeOutside (n : Nat) (qs : List Nat) (x y : Nat) : Bool :=
  (List.range n).all fun j => qs.contains j || (Nat.testBit x j == Nat.testBit y j)

/-- Embed the matrix of a gate acting on the qubits qs of an n-qubit register
into the full 2^n-dimensional space, under the qubit-0-least-significant
convention: the entry at (i, j) is the sub-matrix entry on the bits selected
by qs when i and j agree on all other qubits, and 0 otherwise. -/
def liftGate (n : Nat) (qs : List Nat) (m : Mat) : Mat :=
  fun i j => if agreeOutside n qs i j then m (subIndex qs i) (subIndex qs j) else 0

/-- An instruction of a definition list: a sub-gate matrix, the qubit indices
it acts on, and the (always empty) classical-bit list. -/
abbrev Instr := Mat × List Nat × List Nat

/-- SwapGate definition rule, transcribed from swap.py lines 62 to 76:
cx q0,q1; cx q1,q0; cx q0,q1 on a fresh 2-qubit register. -/
def SwapGate.definitionList : List Instr :=
  [(CXGate.to_matrix, [0, 1], []),
   (CXGate.to_matrix, [1, 0], []),
   (CXGate.to_matrix, [0, 1], [])]

/-- CSwapGate definition rule, transcribed from swap.py lines 207 to 226:
cx q2,q1; ccx q0,q1,q2; cx q2,q1 on a fresh 3-qubit register. -/
def CSwapGate.definitionList : List Instr :=
  [(CXGate.to_matrix, [2, 1], []),
   (CCXGate.to_matrix, [0, 1, 2], []),
   (CXGate.to_matrix, [2, 1], [])]

/-- The matrix of a sequence of instructions over n qubits, composed so that
the first listed instruction is applied first (it stands rightmost in the
matrix product). -/
def seqMatrix (n : Nat) : List Instr → Mat
  | [] => idMat
  | (m, qs, _) :: rest => matMulN (2 ^ n) (seqMatrix n rest) (liftGate n qs m)

/-- Claim C1: the decomposition of SWAP is exactly the ordered sequence
CNOT(0,1); CNOT(1,0); CNOT(0,1) on a fresh 2-qubit register, and the matrix
product of this sequence, composed in declared qubit order under the
qubit-0-least-significant convention, equals the SWAP matrix entry for
entry. -/
theorem C1_swap_decomposition :
    (SwapGate.definitionList.map (fun r => r.2.1) = [[0, 1], [1, 0], [0, 1]]) ∧
    matEqN 4 (seqMatrix 2 SwapGate.definitionList) SwapGate.to_matrix := by
  exact ⟨rfl, by decide⟩

/-- Claim C4: the SWAP matrix is the 4-by-4 permutation matrix exchanging the
amplitudes of basis states 1 and 2 and fixing basis states 0 and 3. -/
theorem C4_swap_matrix :
    ∀ i < 4, ∀ j < 4, SwapGate.to_matrix i j =
      (if (j = 1 ∧ i = 2) ∨ (j = 2 ∧ i = 1) ∨ (i = j ∧ j ≠ 1 ∧ j ≠ 2)
       then 1 else 0) := by decide

/-- Witness for claim C4 at the entry (2, 1): the matrix sends basis state 1
to basis state 2. -/
theorem C4_swap_matrix_witness :
    SwapGate.to_matrix 2 1 =
      (if ((1 : Nat) = 1 ∧ (2 : Nat) = 2) ∨ ((1 : Nat) = 2 ∧ (2 : Nat) = 1) ∨
          ((2 : Nat) = 1 ∧ (1 : Nat) ≠ 1 ∧ (1 : Nat) ≠ 2)
       then 1 else 0) :=
  C4_swap_matrix 2 (by decide) 1 (by decide)

/-- Claim C2: the decomposition of CSWAP is exactly the ordered sequence
CNOT(q2,q1); Toffoli(q0,q1,q2); CNOT(q2,q1) on a fresh 3-qubit register, and
the matrix product of this sequence, composed in declared qubit order under
the qubit-0-least-significant convention, equals the CSWAP matrix entry for
entry. -/
theorem C2_cswap_decomposition :
    (CSwapGate.definitionList.map (fun r => r.2.1) = [[2, 1], [0, 1, 2], [2, 1]]) ∧
    matEqN 8 (seqMatrix 3 CSwapGate.definitionList) CSwapGate.to_matrix := by
  exact ⟨rfl, by decide⟩

/-- Claim C3 counterexample: the CSWAP matrix does NOT place the control at
the highest-indexed slot. Basis state 3 has qubit 2 (the highest-indexed
slot) equal to 0, so under the claim it would be fixed; but the matrix sends
it to basis state 5 (diagonal entry 0, entry (5, 3) equal to 1). -/
theorem C3_counterexample :
    ¬ (∀ j < 8, Nat.testBit j 2 = false → CSwapGate.to_matrix j j = 1) := by
  intro h
  have := h 3 (by decide) (by decide)
  simp [CSwapGate.to_matrix, ofRows] at this

/-- Claim C3 (amended): the control qubit of the CSWAP matrix sits at the
LOWEST-indexed slot (qubit 0, the least significant bit): every column whose
basis state has bit 0 clear is the corresponding standard basis vector
(identity on the control-inactive subspace), and on the basis states with
bit 0 set the matrix embeds SWAP on the two target qubits 1 and 2. -/
theorem C3_amended :
    ∀ i < 8, ∀ j < 8, CSwapGate.to_matrix i j =
      (if Nat.testBit j 0 = false then (if i = j then 1 else 0)
       else if Nat.testBit i 0 then SwapGate.to_matrix (i / 2) (j / 2)
       else 0) := by decide

/-- Witness for the amended claim C3 at the entry (5, 3): with the control
bit set, basis state 3 goes to basis state 5 through the embedded SWAP. -/
theorem C3_amended_witness :
    CSwapGate.to_matrix 5 3 =
      (if Nat.testBit 3 0 = false then (if (5 : Nat) = 3 then 1 else 0)
       else if Nat.testBit 5 0 then SwapGate.to_matrix (5 / 2) (3 / 2)
       else 0) :=
  C3_amended 5 (by decide) 3 (by decide)

/-- The Python class of a constructed gate object: SwapGate, CSwapGate, or
the deprecated FredkinGate subclass. -/
inductive PyType
  | swapT
  | cswapT
  | fredkinT
  deriving DecidableEq

/-- A control state as the source accepts it: an integer or a bit string. -/
inductive CtrlState
  | ofNat (n : Nat)
  | ofStr (s : String)
  deriving DecidableEq

/-- The value-level content of a constructed gate object: its class, the
identity fields passed to the Gate or ControlledGate initializer, and the
control data of controlled gates. -/
structure GateObj where
  ty : PyType
  name : String
  num_qubits : Nat
  params : List Int
  label : Option String
  num_ctrl_qubits : Option Nat
  base_gate_name : Option String
  deriving DecidableEq

/-- The object built by the SwapGate initializer (swap.py lines 58 to 60):
Gate with name swap, 2 qubits, no parameters. -/
def SwapGate.new : GateObj :=
  { ty := .swapT, name := "swap", num_qubits := 2, params := [], label := none,
    num_ctrl_qubits := none, base_gate_name := none }

/-- The object built by the CSwapGate initializer (swap.py lines 202 to 205):
ControlledGate with name cswap, 3 qubits, no parameters, one control qubit,
and a SwapGate as base gate. -/
def CSwapGate.new : GateObj :=
  { ty := .cswapT, name := "cswap", num_qubits := 3, params := [], label := none,
    num_ctrl_qubits := some 1, base_gate_name := some "swap" }

/-- The deprecation message the FredkinGate initializer passes to
warnings.warn (swap.py lines 249 to 252). -/
def FredkinGate.deprecationMessage : String :=
  "The class FredkinGate is deprecated as of 0.14.0, and will be removed no earlier than 3 months after that release date. You should use the class CSwapGate instead."

/-- The FredkinGate initializer (swap.py lines 247 to 253): it emits one
deprecation warning and then delegates to the CSwapGate initializer, so the
object it returns carries the FredkinGate class and otherwise the exact
CSwapGate content. Returns the list of warnings emitted together with the
constructed object. -/
def FredkinGate.new : List String × GateObj :=
  ([FredkinGate.deprecationMessage], { CSwapGate.new with ty := .fredkinT })

/-- Method dispatch for to_matrix: SwapGate and CSwapGate define it and
FredkinGate inherits the CSwapGate method. -/
def GateObj.to_matrix (g : GateObj) : Mat :=
  match g.ty with
  | .swapT => SwapGate.to_matrix
  | .cswapT => CSwapGate.to_matrix
  | .fredkinT => CSwapGate.to_matrix

/-- Method dispatch for inverse: SwapGate.inverse (swap.py lines 98 to 100)
returns a freshly constructed SwapGate, CSwapGate.inverse (lines 228 to 230)
returns a freshly constructed CSwapGate, and FredkinGate inherits the
CSwapGate method. -/
def GateObj.inverse (g : GateObj) : GateObj :=
  match g.ty with
  | .swapT => SwapGate.new
  | .cswapT => CSwapGate.new
  | .fredkinT => CSwapGate.new

/-- Method dispatch for the definition rule: FredkinGate inherits the
CSwapGate rule. -/
def GateObj.definitionOf (g : GateObj) : List Instr :=
  match g.ty with
  | .swapT => SwapGate.definitionList
  | .cswapT => CSwapGate.definitionList
  | .fredkinT => CSwapGate.definitionList

/-- CSwapMeta.__instancecheck__ (swap.py lines 124 to 126): an object counts
as a CSwapGate instance exactly when its class is CSwapGate or FredkinGate. -/
def CSwapMeta.instancecheck (g : GateObj) : Bool :=
  match g.ty with
  | .cswapT => true
  | .fredkinT => true
  | .swapT => false

/-- The result of SwapGate.control: either a directly returned gate object
(the shortcut) or a delegation to the generic ControlledGate synthesis of the
superclass, recorded with the arguments forwarded to it. -/
inductive SwapControlResult
  | gate (g : GateObj)
  | generic (num_ctrl_qubits : Nat) (label : Option String) (ctrl_state : Option CtrlState)
  deriving DecidableEq

/-- SwapGate.control (swap.py lines 78 to 96): when ctrl_state is None and
num_ctrl_qubits is 1 it returns a fresh CSwapGate directly (discarding the
label); otherwise it delegates to the generic superclass synthesis with all
three arguments forwarded. -/
def SwapGate.control (num_ctrl_qubits : Nat) (label : Option String)
    (ctrl_state : Option CtrlState) : SwapControlResult :=
  match ctrl_state with
  | none =>
      if num_ctrl_qubits = 1 then .gate CSwapGate.new
      else .generic num_ctrl_qubits label none
  | some s => .generic num_ctrl_qubits label (some s)

/-- A circuit: the appended instructions (gate object, qubit arguments,
classical-bit arguments) and the warnings emitted while building it. -/
structure QuantumCircuit where
  data : List (GateObj × List Nat × List Nat)
  warns : List String
  deriving DecidableEq

/-- QuantumCircuit.append as the convenience methods of the source use it:
record the instruction at the end of the circuit data. -/
def QuantumCircuit.append (self : QuantumCircuit) (g : GateObj)
    (qargs : List Nat) (cargs : List Nat) : QuantumCircuit :=
  { self with data := self.data ++ [(g, qargs, cargs)] }

/-- The cswap convenience method (swap.py lines 259 to 263): called with
positional qubit arguments it appends a fresh CSwapGate on the qubit list
[control, target1, target2] with an empty classical-bit list and emits no
warning. -/
def QuantumCircuit.cswap (self : QuantumCircuit)
    (control_qubit target_qubit1 target_qubit2 : Nat) : QuantumCircuit :=
  self.append CSwapGate.new [control_qubit, target_qubit1, target_qubit2] []

/-- The fredkin convenience method is bound to the very same function as
cswap (swap.py line 268). -/
def QuantumCircuit.fredkin : QuantumCircuit → Nat → Nat → Nat → QuantumCircuit :=
  QuantumCircuit.cswap

/-- Whether the character list pat occurs contiguously inside s. -/
def containsChars (pat : List Char) : List Char → Bool
  | [] => pat.isEmpty
  | c :: rest => pat.isPrefixOf (c :: rest) || containsChars pat rest

/-- Claim C5: SwapGate.control takes the closed-form CSWAP shortcut exactly
when num_ctrl_qubits is 1 and no control state was supplied; every supplied
control state, including the integer 1 that is numerically the all-ones
default, goes down the generic synthesis path. -/
theorem C5_control_shortcut :
    ∀ (n : Nat) (label : Option String) (cs : Option CtrlState),
      SwapGate.control n label cs =
        (if n = 1 ∧ cs = none then .gate CSwapGate.new
         else .generic n label cs) := by
  intro n label cs
  cases cs with
  | none =>
      by_cases h : n = 1 <;> simp [SwapGate.control, h]
  | some s =>
      simp [SwapGate.control]

/-- Claim C6: the inverse of SWAP is a (freshly constructed) SwapGate value
and the inverse of CSWAP is a (freshly constructed) CSwapGate value, and in
both cases the matrix of the gate times the matrix of its inverse is exactly
the identity matrix. -/
theorem C6_inverse_identity :
    SwapGate.new.inverse = SwapGate.new ∧
    CSwapGate.new.inverse = CSwapGate.new ∧
    matEqN 4 (matMulN 4 SwapGate.new.to_matrix SwapGate.new.inverse.to_matrix) idMat ∧
    matEqN 8 (matMulN 8 CSwapGate.new.to_matrix CSwapGate.new.inverse.to_matrix) idMat := by
  exact ⟨rfl, rfl, by decide, by decide⟩

/-- Claim C7: for the self-inverse gates in scope, SWAP and CSWAP, taking the
inverse twice gives a gate whose matrix equals the original matrix entry for
entry (indeed the very same gate value). -/
theorem C7_double_inverse :
    matEqN 4 SwapGate.new.inverse.inverse.to_matrix SwapGate.new.to_matrix ∧
    matEqN 8 CSwapGate.new.inverse.inverse.to_matrix CSwapGate.new.to_matrix := by
  exact ⟨by decide, by decide⟩

/-- Claim C8: constructing a FredkinGate emits exactly one deprecation
notice, whose text names the old identifier FredkinGate, the deprecation
version 0.14.0 and the replacement CSwapGate; the constructed object has the
same name, matrix, definition rule and inverse as a canonically constructed
CSwapGate; and the CSwapGate instance check accepts objects constructed
under either name. -/
theorem C8_fredkin_alias :
    FredkinGate.new.1 = [FredkinGate.deprecationMessage] ∧
    containsChars "FredkinGate".data FredkinGate.deprecationMessage.data = true ∧
    containsChars "0.14.0".data FredkinGate.deprecationMessage.data = true ∧
    containsChars "CSwapGate".data FredkinGate.deprecationMessage.data = true ∧
    FredkinGate.new.2.name = CSwapGate.new.name ∧
    FredkinGate.new.2.to_matrix = CSwapGate.new.to_matrix ∧
    FredkinGate.new.2.definitionOf = CSwapGate.new.definitionOf ∧
    FredkinGate.new.2.inverse = CSwapGate.new.inverse ∧
    CSwapMeta.instancecheck FredkinGate.new.2 = true ∧
    CSwapMeta.instancecheck CSwapGate.new = true := by
  refine ⟨rfl, by decide, by decide, by decide, rfl, rfl, rfl, rfl, rfl, rfl⟩

/-- Claim C9: the legacy fredkin circuit method is the very same function as
cswap: it appends a canonical CSwapGate object (of the CSwapGate class, not
the FredkinGate class) on the qubit list [control, target1, target2] with an
empty classical-bit list, and leaves the warning log untouched, in contrast
to direct FredkinGate construction which emits a warning. -/
theorem C9_fredkin_method :
    QuantumCircuit.fredkin = QuantumCircuit.cswap ∧
    (∀ (qc : QuantumCircuit) (c t1 t2 : Nat),
      (QuantumCircuit.fredkin qc c t1 t2).data
          = qc.data ++ [(CSwapGate.new, [c, t1, t2], [])] ∧
      (QuantumCircuit.fredkin qc c t1 t2).warns = qc.warns) ∧
    CSwapGate.new.ty = PyType.cswapT ∧
    FredkinGate.new.1 ≠ [] := by
  exact ⟨rfl, fun qc c t1 t2 => ⟨rfl, rfl⟩, rfl, by decide⟩

/-- Claim C10: when the shortcut of SwapGate.control fires, the supplied
label is discarded: for every label L, control with one control qubit and no
control state returns the fresh CSwapGate value, which carries no label;
while the generic path forwards L unchanged, both for two control qubits and
for an explicitly supplied control state. -/
theorem C10_label_discarded :
    ∀ (L : Option String),
      SwapGate.control 1 L none = SwapControlResult.gate CSwapGate.new ∧
      CSwapGate.new.label = none ∧
      SwapGate.control 2 L none = SwapControlResult.generic 2 L none ∧
      SwapGate.control 1 L (some (CtrlState.ofNat 1))
          = SwapControlResult.generic 1 L (some (CtrlState.ofNat 1)) := by
  intro L
  exact ⟨rfl, rfl, rfl, rfl⟩
